import Mathlib

/-!
Verification of the voice-similarity metrics engine of llamasearchai/llamasesame
(src/app/metrics.py), shallowly embedded over ℚ.

Modelling conventions:
- Audio samples and all intermediate float values are modelled as rationals.
- The librosa / scipy feature-extraction routines (pyin, melspectrogram + power_to_db,
  mfcc + delta + vstack, lpc, scipy.spatial.distance.cosine) are external library
  calls, not code of this repository; they are abstracted as an `Extractors` record
  of oracle functions.  Fallible library calls return `Except String`.
- A signal whose samples are not finite (NaN, produced by 0.0/0.0 in the
  normalization step) is modelled as `none : Option (List ℚ)`; librosa refuses
  non-finite audio buffers, so every extraction oracle "raises" on it, which the
  per-metric handlers convert to a 0.0 score.
- Python exceptions caught by the `except Exception` blocks are modelled by the
  corresponding Lean function returning the value the handler returns.
-/

set_option linter.unusedVariables false

namespace LlamaSesame

/-- np.mean: arithmetic mean of a list of rationals.  The code only ever takes the
mean of non-empty arrays; on `[]` this gives 0 where numpy would give NaN. -/
def mean (xs : List ℚ) : ℚ := xs.sum / (xs.length : ℚ)

/-- np.max(np.abs(y)): peak absolute amplitude.  On `[]` numpy raises instead;
that raise is modelled in `normalizeSignal`, so the 0 default here is never the
value the program sees. -/
def peakAbs (xs : List ℚ) : ℚ := (xs.map (fun x => |x|)).foldr max 0

/-- Lines 43-44 of metrics.py: `y = y / np.max(np.abs(y))`.
`np.max` raises on an empty array (`.error`).  For a non-empty all-zero signal the
division is performed anyway and every sample becomes 0.0/0.0 = NaN, which numpy
produces without raising; the resulting non-finite signal is `Except.ok none`. -/
def normalizeSignal (xs : List ℚ) : Except String (Option (List ℚ)) :=
  if xs.isEmpty then
    .error "zero-size array to reduction operation maximum which has no identity"
  else if peakAbs xs = 0 then .ok none
  else .ok (some (xs.map (fun x => x / peakAbs xs)))

/-- The external librosa / scipy routines used by metrics.py, abstracted as
oracles.  `pyin` stands for the composite "run librosa.pyin, then keep the
voiced-frame F0 values" (lines 90-101); `logmel` for stft→melspectrogram→
power_to_db (lines 144-153), one inner list per mel band, one column per frame;
`mfccFeat` for mfcc→delta→vstack (lines 188-197); `lpc` for librosa.lpc
(order 16); `cosd` for scipy.spatial.distance.cosine, the cosine DISTANCE
1 - cos_angle. -/
structure Extractors where
  pyin : List ℚ → Except String (List ℚ)
  logmel : List ℚ → Except String (List (List ℚ))
  mfccFeat : List ℚ → Except String (List (List ℚ))
  lpc : List ℚ → Except String (List ℚ)
  cosd : List ℚ → List ℚ → ℚ

/-- np.linspace(0, 1, m): m evenly spaced points from 0 to 1.  For m = 1 numpy
gives [0.0]; here (j:ℚ)/((1:ℚ)-1) = j/0 = 0 by the total division of ℚ, which
coincides with numpy's value. -/
def linspace01 (m : ℕ) : List ℚ :=
  (List.range m).map (fun (j : ℕ) => (j : ℚ) / ((m : ℚ) - 1))

/-- np.interp(t, np.linspace(0,1,f.length), f): piecewise-linear interpolation of
the sample points ((i/(n-1)), f[i]) at position t ∈ [0,1].  With n = 1 numpy
clamps every query to f[0]. -/
def interpOn (f : List ℚ) (t : ℚ) : ℚ :=
  let n := f.length
  if n = 0 then 0
  else if n = 1 then f.headD 0
  else
    let p := t * ((n : ℚ) - 1)
    let i := min (Int.toNat ⌊p⌋) (n - 2)
    f.getD i 0 + (p - (i : ℚ)) * (f.getD (i + 1) 0 - f.getD i 0)

/-- Lines 110-115 of metrics.py: np.interp(np.linspace(0,1,m), np.linspace(0,1,len f), f). -/
def resampleLin (f : List ℚ) (m : ℕ) : List ℚ := (linspace01 m).map (interpOn f)

/-- calculate_pitch_similarity (lines 76-127).  The two signals are the
peak-normalized buffers (`none` = non-finite); librosa.pyin raises on a
non-finite buffer and may raise internally, both caught by the handler at lines
125-127 which returns 0.0. -/
def calculate_pitch_similarity (E : Extractors) (y_orig y_gen : Option (List ℚ))
    (sr : ℚ) : ℚ :=
  match y_orig, y_gen with
  | some yo, some yg =>
    match E.pyin yo, E.pyin yg with
    | .ok f0_orig, .ok f0_gen =>
      if f0_orig.length = 0 ∨ f0_gen.length = 0 then 0
      else
        let min_len := min f0_orig.length f0_gen.length
        let f0_orig_interp := resampleLin f0_orig min_len
        let f0_gen_interp := resampleLin f0_gen min_len
        let diff := List.zipWith (fun a b => |a - b|) f0_orig_interp f0_gen_interp
        let pitch_dist := mean diff / mean f0_orig_interp
        let similarity := max 0 (1 - pitch_dist)
        min similarity 1
    | _, _ => 0
  | _, _ => 0

/-- numpy shape[1] of a 2-D array stored row-major as a list of rows: the row
length (numpy rows are uniform, so the first row's length is the width). -/
def gridWidth (g : List (List ℚ)) : ℕ := (g.headD []).length

/-- calculate_spectral_similarity (lines 130-171): log-mel grids from the
`logmel` oracle, truncation of every row to the minimum width (`[:, :min_width]`),
row-major flatten, cosine similarity 1 - cosd, clamped by
`max(0, min(similarity, 1.0))`.  Any library raise, including on a non-finite
buffer, is caught at lines 169-171 returning 0.0. -/
def calculate_spectral_similarity (E : Extractors) (y_orig y_gen : Option (List ℚ))
    (sr : ℚ) : ℚ :=
  match y_orig, y_gen with
  | some yo, some yg =>
    match E.logmel yo, E.logmel yg with
    | .ok log_mel_orig, .ok log_mel_gen =>
      let min_width := min (gridWidth log_mel_orig) (gridWidth log_mel_gen)
      let flat_orig := (log_mel_orig.map (fun r => r.take min_width)).flatten
      let flat_gen := (log_mel_gen.map (fun r => r.take min_width)).flatten
      let similarity := 1 - E.cosd flat_orig flat_gen
      max 0 (min similarity 1)
    | _, _ => 0
  | _, _ => 0

/-- calculate_mfcc_similarity (lines 174-215): the stacked MFCC+delta grids from
the `mfccFeat` oracle, truncation to the minimum width, flatten, cosine
similarity, same clamp; handler at lines 213-215 returns 0.0. -/
def calculate_mfcc_similarity (E : Extractors) (y_orig y_gen : Option (List ℚ))
    (sr : ℚ) : ℚ :=
  match y_orig, y_gen with
  | some yo, some yg =>
    match E.mfccFeat yo, E.mfccFeat yg with
    | .ok features_orig, .ok features_gen =>
      let min_width := min (gridWidth features_orig) (gridWidth features_gen)
      let flat_orig := (features_orig.map (fun r => r.take min_width)).flatten
      let flat_gen := (features_gen.map (fun r => r.take min_width)).flatten
      let similarity := 1 - E.cosd flat_orig flat_gen
      max 0 (min similarity 1)
    | _, _ => 0
  | _, _ => 0

/-- The FIRST component of scipy.signal.freqz(1.0, a) with the default worN=512:
the frequency grid w_k = pi*k/512, k < 512, which line 240 converts to Hz by
multiplying with sr/(2*pi), giving k*sr/1024.  This grid does not depend on the
filter coefficients a at all. -/
def freqzGridHz (sr : ℚ) : List ℚ :=
  (List.range 512).map (fun (k : ℕ) => (k : ℚ) * sr / 1024)

/-- calculate_formant_similarity (lines 218-255).  `freqs_orig, _ =
signal.freqz(1.0, lpc_orig)` binds the frequency GRID w (identical for any
filter) and discards the frequency response h, so after the Hz conversion and
the below-Nyquist mask (computed from hz_freqs_orig, applied to both equal
arrays) the cosine comparison runs on two copies of the same
coefficient-independent vector. -/
def calculate_formant_similarity (E : Extractors) (y_orig y_gen : Option (List ℚ))
    (sr : ℚ) : ℚ :=
  match y_orig, y_gen with
  | some yo, some yg =>
    match E.lpc yo, E.lpc yg with
    | .ok _lpc_orig, .ok _lpc_gen =>
      let hz_freqs_orig := (freqzGridHz sr).filter (fun f => f < sr / 2)
      let hz_freqs_gen := (freqzGridHz sr).filter (fun f => f < sr / 2)
      let similarity := 1 - E.cosd hz_freqs_orig hz_freqs_gen
      max 0 (min similarity 1)
    | _, _ => 0
  | _, _ => 0

/-- The result dictionary of calculate_voice_metrics; `error = none` models the
success dictionary without the 'error' key. -/
structure MetricsResult where
  pitch_similarity : ℚ
  spectral_similarity : ℚ
  mfcc_similarity : ℚ
  overall_similarity : ℚ
  error : Option String
deriving DecidableEq

/-- Lines 62-71 of metrics.py: the dictionary returned by the top-level handler. -/
def errorResult (e : String) : MetricsResult :=
  { pitch_similarity := 0, spectral_similarity := 0, mfcc_similarity := 0,
    overall_similarity := 0, error := some e }

/-- calculate_voice_metrics (lines 18-73).  The two `Except` arguments model
`librosa.load(original_audio)` and `librosa.load(generated_audio)`; a load
raise, or the np.max raise on an empty buffer during normalization, lands in
the top-level handler.  The three per-metric calls are total (they catch
internally), so once normalization succeeds the success dictionary is built;
calculate_formant_similarity is never called here. -/
def calculate_voice_metrics (E : Extractors)
    (load_orig load_gen : Except String (List ℚ)) (sr : ℚ) : MetricsResult :=
  match load_orig with
  | .error e => errorResult e
  | .ok y_orig =>
    match load_gen with
    | .error e => errorResult e
    | .ok y_gen =>
      match normalizeSignal y_orig with
      | .error e => errorResult e
      | .ok n_orig =>
        match normalizeSignal y_gen with
        | .error e => errorResult e
        | .ok n_gen =>
          let pitch_sim := calculate_pitch_similarity E n_orig n_gen sr
          let spec_sim := calculate_spectral_similarity E n_orig n_gen sr
          let mfcc_sim := calculate_mfcc_similarity E n_orig n_gen sr
          { pitch_similarity := pitch_sim, spectral_similarity := spec_sim,
            mfcc_similarity := mfcc_sim,
            overall_similarity := pitch_sim * (3/10) + spec_sim * (4/10) + mfcc_sim * (3/10),
            error := none }

/-! Spec-side definitions, written from the wording of spec.md (sections 3 and
4.2) for comparison with the embedded source functions. -/

/-- Normalization as the spec describes it (section 3, AudioSignal invariant):
divide by the peak absolute value, but SKIP the division and keep the signal
(as silence) when the peak is zero. -/
def normalizeSpec (xs : List ℚ) : List ℚ :=
  if peakAbs xs = 0 then xs else xs.map (fun x => x / peakAbs xs)

/-- clamp(x, 0, 1) as the spec words it. -/
def specClamp (x : ℚ) : ℚ := max 0 (min x 1)

/-- Linear interpolation of a sequence at normalized position t ∈ [0,1], written
as the convex combination of the two surrounding sample points of the sequence
placed at positions i/(n-1). -/
def specInterp (f : List ℚ) (t : ℚ) : ℚ :=
  match f with
  | [] => 0
  | [v] => v
  | _ =>
    let n := f.length
    let p := t * ((n : ℚ) - 1)
    let i := min (Int.toNat ⌊p⌋) (n - 2)
    (1 - (p - (i : ℚ))) * f.getD i 0 + (p - (i : ℚ)) * f.getD (i + 1) 0

/-- The position of index j on the spec's common uniform grid of m points over
[0, 1]. -/
def specGrid (m j : ℕ) : ℚ := if m ≤ 1 then 0 else (j : ℚ) / ((m : ℚ) - 1)

/-- Resampling onto a common uniform grid of length m by linear interpolation
over the normalized position [0,1] (spec section 4.2, 1-D alignment rule). -/
def specResample (f : List ℚ) (m : ℕ) : List ℚ :=
  (List.range m).map (fun j => specInterp f (specGrid m j))

/-- Mean absolute difference of two aligned sequences. -/
def specMeanAbsDiff (u v : List ℚ) : ℚ :=
  mean (List.zipWith (fun a b => |a - b|) u v)

/-- Pitch similarity as the spec words it: align both contours onto a common
uniform grid of length min(len A, len B) by linear interpolation, take the mean
absolute difference, normalize by the mean of the aligned reference contour,
and map through clamp(1 - relative_error, 0, 1). -/
def specPitchSimilarity (A B : List ℚ) : ℚ :=
  let m := min A.length B.length
  let alignedA := specResample A m
  let alignedB := specResample B m
  specClamp (1 - specMeanAbsDiff alignedA alignedB / mean alignedA)

/-- The two flattened vectors of the spec's 2-D alignment rule: truncate both
grids along the frame axis to min(widthA, widthB), flatten each to one vector. -/
def specAligned (A B : List (List ℚ)) : List ℚ × List ℚ :=
  let w := min (gridWidth A) (gridWidth B)
  ((A.map (fun r => r.take w)).flatten, (B.map (fun r => r.take w)).flatten)

/-- 2-D grid similarity as the spec words it: cosine similarity of the two
aligned flattened vectors, clamped to [0,1].  `cosd` is the cosine distance
oracle, so the cosine similarity is 1 - cosd. -/
def specGridScore (cosd : List ℚ → List ℚ → ℚ) (A B : List (List ℚ)) : ℚ :=
  specClamp (1 - cosd (specAligned A B).1 (specAligned A B).2)

/-! Helper lemmas. -/

theorem clamp_minmax (x : ℚ) : min (max 0 x) 1 = max 0 (min x 1) := by
  rcases le_total x 0 with h | h <;> rcases le_total x 1 with h1 | h1 <;>
    simp [min_def, max_def] <;> split_ifs <;> linarith

theorem interpOn_eq_specInterp (f : List ℚ) (t : ℚ) :
    interpOn f t = specInterp f t := by
  match f with
  | [] => rfl
  | [v] => rfl
  | a :: b :: l =>
    show interpOn (a :: b :: l) t = _
    unfold interpOn specInterp
    simp only [List.length_cons]
    split
    · omega
    · split
      · omega
      · ring

theorem resampleLin_eq_spec (f : List ℚ) (m : ℕ) :
    resampleLin f m = specResample f m := by
  unfold resampleLin specResample linspace01
  rw [List.map_map]
  refine List.map_congr_left ?_
  intro j hj
  rw [List.mem_range] at hj
  simp only [Function.comp]
  rw [interpOn_eq_specInterp]
  congr 1
  unfold specGrid
  split
  · rename_i hm
    have hm1 : m = 1 := by omega
    have hj0 : j = 0 := by omega
    subst hm1
    subst hj0
    simp
  · rfl

theorem clamp_minmax_mem01 (x : ℚ) : 0 ≤ min (max 0 x) 1 ∧ min (max 0 x) 1 ≤ 1 :=
  ⟨le_min (le_max_left 0 x) zero_le_one, min_le_right _ _⟩

theorem clamp_maxmin_mem01 (x : ℚ) : 0 ≤ max 0 (min x 1) ∧ max 0 (min x 1) ≤ 1 :=
  ⟨le_max_left 0 _, max_le zero_le_one (min_le_right x 1)⟩

theorem pitch_similarity_bounds (E : Extractors) (yo yg : Option (List ℚ)) (sr : ℚ) :
    0 ≤ calculate_pitch_similarity E yo yg sr ∧ calculate_pitch_similarity E yo yg sr ≤ 1 := by
  rcases yo with _ | yo
  · norm_num [calculate_pitch_similarity]
  rcases yg with _ | yg
  · norm_num [calculate_pitch_similarity]
  rcases hpo : E.pyin yo with e | f0o
  · norm_num [calculate_pitch_similarity, hpo]
  rcases hpg : E.pyin yg with e | f0g
  · norm_num [calculate_pitch_similarity, hpo, hpg]
  simp only [calculate_pitch_similarity, hpo, hpg]
  split
  · norm_num
  · exact clamp_minmax_mem01 _

theorem spectral_similarity_bounds (E : Extractors) (yo yg : Option (List ℚ)) (sr : ℚ) :
    0 ≤ calculate_spectral_similarity E yo yg sr ∧
      calculate_spectral_similarity E yo yg sr ≤ 1 := by
  rcases yo with _ | yo
  · norm_num [calculate_spectral_similarity]
  rcases yg with _ | yg
  · norm_num [calculate_spectral_similarity]
  rcases hgo : E.logmel yo with e | go
  · norm_num [calculate_spectral_similarity, hgo]
  rcases hgg : E.logmel yg with e | gg
  · norm_num [calculate_spectral_similarity, hgo, hgg]
  simp only [calculate_spectral_similarity, hgo, hgg]
  exact clamp_maxmin_mem01 _

theorem mfcc_similarity_bounds (E : Extractors) (yo yg : Option (List ℚ)) (sr : ℚ) :
    0 ≤ calculate_mfcc_similarity E yo yg sr ∧ calculate_mfcc_similarity E yo yg sr ≤ 1 := by
  rcases yo with _ | yo
  · norm_num [calculate_mfcc_similarity]
  rcases yg with _ | yg
  · norm_num [calculate_mfcc_similarity]
  rcases hgo : E.mfccFeat yo with e | go
  · norm_num [calculate_mfcc_similarity, hgo]
  rcases hgg : E.mfccFeat yg with e | gg
  · norm_num [calculate_mfcc_similarity, hgo, hgg]
  simp only [calculate_mfcc_similarity, hgo, hgg]
  exact clamp_maxmin_mem01 _

/-- A stub extraction environment used to instantiate theorems at concrete
inputs: every library call fails (and is caught by the per-metric handlers). -/
def stubE : Extractors :=
  { pyin := fun _ => .error "pyin failed", logmel := fun _ => .error "stft failed",
    mfccFeat := fun _ => .error "mfcc failed", lpc := fun _ => .error "lpc failed",
    cosd := fun _ _ => 0 }

/-- C1: whenever loading raises (nonexistent or undecodable path for either
input), calculate_voice_metrics returns — it is a total function, so no
exception propagates to the caller — the dictionary with all four numeric
fields 0.0 and an 'error' field carrying the (non-empty) exception text. -/
theorem c1_total_failure_shape (E : Extractors) (sr : ℚ) (e : String) (he : e ≠ "") :
    (∀ load_gen, calculate_voice_metrics E (.error e) load_gen sr = errorResult e) ∧
    (∀ y, calculate_voice_metrics E (.ok y) (.error e) sr = errorResult e) ∧
    (errorResult e).pitch_similarity = 0 ∧ (errorResult e).spectral_similarity = 0 ∧
    (errorResult e).mfcc_similarity = 0 ∧ (errorResult e).overall_similarity = 0 ∧
    (errorResult e).error = some e ∧ e ≠ "" :=
  ⟨fun _ => rfl, fun _ => rfl, rfl, rfl, rfl, rfl, rfl, he⟩

theorem c1_total_failure_shape_witness :
    calculate_voice_metrics stubE (.error "No such file or directory") (.ok [1]) 16000 =
      errorResult "No such file or directory" :=
  (c1_total_failure_shape stubE 16000 "No such file or directory" (by decide)).1 (.ok [1])

/-- C2: every non-error result satisfies
overall = 0.3 * pitch + 0.4 * spectral + 0.3 * mfcc exactly; formant similarity
is never consulted by calculate_voice_metrics, so it cannot enter the blend. -/
theorem c2_overall_weighted_blend (E : Extractors)
    (load_orig load_gen : Except String (List ℚ)) (sr : ℚ)
    (h : (calculate_voice_metrics E load_orig load_gen sr).error = none) :
    (calculate_voice_metrics E load_orig load_gen sr).overall_similarity =
      3/10 * (calculate_voice_metrics E load_orig load_gen sr).pitch_similarity +
      4/10 * (calculate_voice_metrics E load_orig load_gen sr).spectral_similarity +
      3/10 * (calculate_voice_metrics E load_orig load_gen sr).mfcc_similarity := by
  rcases load_orig with e | yo
  · simp [calculate_voice_metrics, errorResult] at h
  rcases load_gen with e | yg
  · simp [calculate_voice_metrics, errorResult] at h
  rcases hno : normalizeSignal yo with e | no
  · simp [calculate_voice_metrics, errorResult, hno] at h
  rcases hng : normalizeSignal yg with e | ng
  · simp [calculate_voice_metrics, errorResult, hno, hng] at h
  simp only [calculate_voice_metrics, hno, hng]
  ring

theorem c2_overall_weighted_blend_witness :
    (calculate_voice_metrics stubE (.ok [1]) (.ok [1]) 16000).overall_similarity =
      3/10 * (calculate_voice_metrics stubE (.ok [1]) (.ok [1]) 16000).pitch_similarity +
      4/10 * (calculate_voice_metrics stubE (.ok [1]) (.ok [1]) 16000).spectral_similarity +
      3/10 * (calculate_voice_metrics stubE (.ok [1]) (.ok [1]) 16000).mfcc_similarity :=
  c2_overall_weighted_blend stubE (.ok [1]) (.ok [1]) 16000 rfl

/-- C3: for every input — any load outcomes, any extraction behaviour — all four
returned scores lie in [0, 1] inclusive. -/
theorem c3_scores_bounded (E : Extractors)
    (load_orig load_gen : Except String (List ℚ)) (sr : ℚ) :
    (0 ≤ (calculate_voice_metrics E load_orig load_gen sr).pitch_similarity ∧
      (calculate_voice_metrics E load_orig load_gen sr).pitch_similarity ≤ 1) ∧
    (0 ≤ (calculate_voice_metrics E load_orig load_gen sr).spectral_similarity ∧
      (calculate_voice_metrics E load_orig load_gen sr).spectral_similarity ≤ 1) ∧
    (0 ≤ (calculate_voice_metrics E load_orig load_gen sr).mfcc_similarity ∧
      (calculate_voice_metrics E load_orig load_gen sr).mfcc_similarity ≤ 1) ∧
    (0 ≤ (calculate_voice_metrics E load_orig load_gen sr).overall_similarity ∧
      (calculate_voice_metrics E load_orig load_gen sr).overall_similarity ≤ 1) := by
  rcases load_orig with e | yo
  · norm_num [calculate_voice_metrics, errorResult]
  rcases load_gen with e | yg
  · norm_num [calculate_voice_metrics, errorResult]
  rcases hno : normalizeSignal yo with e | no
  · norm_num [calculate_voice_metrics, errorResult, hno]
  rcases hng : normalizeSignal yg with e | ng
  · norm_num [calculate_voice_metrics, errorResult, hno, hng]
  simp only [calculate_voice_metrics, hno, hng]
  obtain ⟨hp0, hp1⟩ := pitch_similarity_bounds E no ng sr
  obtain ⟨hs0, hs1⟩ := spectral_similarity_bounds E no ng sr
  obtain ⟨hm0, hm1⟩ := mfcc_similarity_bounds E no ng sr
  refine ⟨⟨hp0, hp1⟩, ⟨hs0, hs1⟩, ⟨hm0, hm1⟩, ?_, ?_⟩ <;> linarith


theorem peakAbs_of_all_zero (z : List ℚ) (h : ∀ x ∈ z, x = 0) : peakAbs z = 0 := by
  induction z with
  | nil => rfl
  | cons a l ih =>
    unfold peakAbs at ih ⊢
    simp only [List.map_cons, List.foldr_cons]
    rw [h a (List.mem_cons_self a l), ih (fun x hx => h x (List.mem_cons_of_mem a hx))]
    simp

theorem normalize_ok_of_ne_nil (g : List ℚ) (hg : g ≠ []) :
    ∃ og, normalizeSignal g = .ok og := by
  unfold normalizeSignal
  rw [if_neg (by simpa using hg)]
  split
  · exact ⟨none, rfl⟩
  · exact ⟨_, rfl⟩

/-- C4 counterexample: for the concrete all-zero signal [0, 0] the code does NOT
skip the division — it performs 0.0/0.0 on every sample, yielding the non-finite
signal (`.ok none`), which differs from the spec's "skip and keep the silence"
behaviour `normalizeSpec`. -/
theorem c4_normalization_not_skipped_cex :
    normalizeSignal [0, 0] = .ok none ∧ normalizeSpec [0, 0] = [0, 0] ∧
    normalizeSignal [0, 0] ≠ .ok (some (normalizeSpec [0, 0])) := by
  refine ⟨?_, ?_, ?_⟩ <;> simp [normalizeSignal, normalizeSpec, peakAbs]

/-- C4 amended: normalization always divides by the peak, so an all-zero signal
becomes non-finite (NaN) rather than being kept as silence; nevertheless the
evaluation of a fully silent signal against any other (non-empty) signal does
not reach the total-failure handler (error = none, nothing raises to the
caller) and pitch_similarity is exactly 0.0, because pitch extraction fails on
the non-finite buffer and the per-metric handler converts that to 0.0. -/
theorem c4_silent_signal_amended (E : Extractors) (sr : ℚ) (z g : List ℚ)
    (hz : z ≠ []) (hz0 : ∀ x ∈ z, x = 0) (hg : g ≠ []) :
    normalizeSignal z = .ok none ∧
    (calculate_voice_metrics E (.ok z) (.ok g) sr).pitch_similarity = 0 ∧
    (calculate_voice_metrics E (.ok z) (.ok g) sr).error = none := by
  have hnz : normalizeSignal z = .ok none := by
    unfold normalizeSignal
    rw [if_neg (by simpa using hz), if_pos (peakAbs_of_all_zero z hz0)]
  obtain ⟨og, hog⟩ := normalize_ok_of_ne_nil g hg
  refine ⟨hnz, ?_, ?_⟩ <;>
    simp [calculate_voice_metrics, hnz, hog, calculate_pitch_similarity]

theorem c4_silent_signal_amended_witness :
    normalizeSignal [0] = .ok none ∧
    (calculate_voice_metrics stubE (.ok [0]) (.ok [1]) 16000).pitch_similarity = 0 ∧
    (calculate_voice_metrics stubE (.ok [0]) (.ok [1]) 16000).error = none :=
  c4_silent_signal_amended stubE 16000 [0] [1] (by simp)
    (by intro x hx; simpa using hx) (by simp)

/-- C5: when loading and normalization of both inputs succeed (finite,
non-silent buffers) but one individual metric's library computation raises
internally, only that metric's score is 0.0; the result carries no 'error'
field, each sibling score is exactly the standalone per-metric computation on
the same normalized signals, and the overall score is the 0.3/0.4/0.3 blend of
whatever the three per-metric scores are (the failed one contributing 0). -/
theorem c5_metric_failure_localized (E : Extractors) (yo yg no ng : List ℚ) (sr : ℚ)
    (ho : normalizeSignal yo = .ok (some no)) (hg : normalizeSignal yg = .ok (some ng)) :
    ((∀ msg, E.pyin no = .error msg →
        (calculate_voice_metrics E (.ok yo) (.ok yg) sr).pitch_similarity = 0) ∧
      (∀ msg, E.logmel no = .error msg →
        (calculate_voice_metrics E (.ok yo) (.ok yg) sr).spectral_similarity = 0) ∧
      (∀ msg, E.mfccFeat no = .error msg →
        (calculate_voice_metrics E (.ok yo) (.ok yg) sr).mfcc_similarity = 0)) ∧
    (calculate_voice_metrics E (.ok yo) (.ok yg) sr).error = none ∧
    (calculate_voice_metrics E (.ok yo) (.ok yg) sr).pitch_similarity =
      calculate_pitch_similarity E (some no) (some ng) sr ∧
    (calculate_voice_metrics E (.ok yo) (.ok yg) sr).spectral_similarity =
      calculate_spectral_similarity E (some no) (some ng) sr ∧
    (calculate_voice_metrics E (.ok yo) (.ok yg) sr).mfcc_similarity =
      calculate_mfcc_similarity E (some no) (some ng) sr ∧
    (calculate_voice_metrics E (.ok yo) (.ok yg) sr).overall_similarity =
      (calculate_voice_metrics E (.ok yo) (.ok yg) sr).pitch_similarity * (3/10) +
      (calculate_voice_metrics E (.ok yo) (.ok yg) sr).spectral_similarity * (4/10) +
      (calculate_voice_metrics E (.ok yo) (.ok yg) sr).mfcc_similarity * (3/10) := by
  simp only [calculate_voice_metrics, ho, hg]
  refine ⟨⟨?_, ?_, ?_⟩, trivial, trivial, trivial, trivial, trivial⟩
  · intro msg hmsg
    simp [calculate_pitch_similarity, hmsg]
  · intro msg hmsg
    simp [calculate_spectral_similarity, hmsg]
  · intro msg hmsg
    simp [calculate_mfcc_similarity, hmsg]

theorem c5_metric_failure_localized_witness :
    (calculate_voice_metrics stubE (.ok [1]) (.ok [1]) 16000).error = none :=
  (c5_metric_failure_localized stubE [1] [1] [1] [1] 16000
    (by simp [normalizeSignal, peakAbs]) (by simp [normalizeSignal, peakAbs])).2.1

/-- C6: if the pitch tracker leaves either voiced contour empty, the pitch
similarity is exactly 0.0 — the empty contour is handled by the explicit
length check at lines 104-105, not by the exception handler. -/
theorem c6_empty_contour_zero (E : Extractors) (yo yg : List ℚ) (sr : ℚ)
    (h : E.pyin yo = .ok [] ∨ E.pyin yg = .ok []) :
    calculate_pitch_similarity E (some yo) (some yg) sr = 0 := by
  rcases hpo : E.pyin yo with e | f0o
  · simp [calculate_pitch_similarity, hpo]
  rcases hpg : E.pyin yg with e | f0g
  · simp [calculate_pitch_similarity, hpo, hpg]
  simp only [calculate_pitch_similarity, hpo, hpg]
  rcases h with h | h
  · rw [hpo] at h
    injection h with h
    subst h
    simp
  · rw [hpg] at h
    injection h with h
    subst h
    simp

/-- An extraction environment whose pitch tracker finds zero voiced frames. -/
def emptyContourE : Extractors :=
  { pyin := fun _ => .ok [], logmel := fun _ => .error "stft failed",
    mfccFeat := fun _ => .error "mfcc failed", lpc := fun _ => .error "lpc failed",
    cosd := fun _ _ => 0 }

theorem c6_empty_contour_zero_witness :
    calculate_pitch_similarity emptyContourE (some [1]) (some [2]) 16000 = 0 :=
  c6_empty_contour_zero emptyContourE [1] [2] 16000 (Or.inl rfl)


/-- An extraction environment whose pitch tracker yields the one-frame contour
[100] for the signal [1] and [50] for any other signal. -/
def asymE : Extractors :=
  { pyin := fun y => if y = [1] then .ok [100] else .ok [50],
    logmel := fun _ => .error "stft failed", mfccFeat := fun _ => .error "mfcc failed",
    lpc := fun _ => .error "lpc failed", cosd := fun _ _ => 0 }

/-- C7: for non-empty voiced contours the pitch scorer equals the spec-worded
computation: both contours resampled independently by linear interpolation onto
the uniform grid of length min(len A, len B) over [0,1], then
clamp(1 - meanAbsDiff / mean(aligned reference contour), 0, 1).  The final
conjunct separates this resampling from naive truncation on a concrete
contour. -/
theorem c7_pitch_alignment_refines_spec (E : Extractors) (yo yg A B : List ℚ) (sr : ℚ)
    (hA : E.pyin yo = .ok A) (hB : E.pyin yg = .ok B) (hA0 : A ≠ []) (hB0 : B ≠ []) :
    calculate_pitch_similarity E (some yo) (some yg) sr = specPitchSimilarity A B ∧
    resampleLin [0, 2, 4] 2 ≠ [0, 2] := by
  constructor
  · simp only [calculate_pitch_similarity, hA, hB]
    rw [if_neg (by simp [List.length_eq_zero, hA0, hB0])]
    simp only [specPitchSimilarity, specClamp, specMeanAbsDiff, ← resampleLin_eq_spec]
    exact clamp_minmax _
  · norm_num [resampleLin, linspace01, interpOn, List.range_succ]

theorem c7_pitch_alignment_refines_spec_witness :
    calculate_pitch_similarity asymE (some [1]) (some [2]) 16000 =
      specPitchSimilarity [100] [50] ∧
    resampleLin [0, 2, 4] 2 ≠ [0, 2] :=
  c7_pitch_alignment_refines_spec asymE [1] [2] [100] [50] 16000 (by simp [asymE])
    (by simp [asymE]) (by simp) (by simp)

/-- An extraction environment with successful 1x1 feature grids. -/
def gridE : Extractors :=
  { pyin := fun _ => .error "pyin failed", logmel := fun _ => .ok [[1]],
    mfccFeat := fun _ => .ok [[2]], lpc := fun _ => .error "lpc failed",
    cosd := fun _ _ => 0 }

/-- C8: both 2-D scorers truncate the two feature grids along the frame axis to
the minimum width, flatten row-major, take the cosine similarity 1 - cosd of
the flattened vectors and clamp to [0,1]; a negative cosine similarity clamps
to exactly 0.  Both functions are total, so grids of different widths (signals
of different durations) produce a score rather than a raise. -/
theorem c8_grid_scorers_refine_spec (E : Extractors) (yo yg : List ℚ)
    (A B A2 B2 : List (List ℚ)) (sr : ℚ)
    (hA : E.logmel yo = .ok A) (hB : E.logmel yg = .ok B)
    (hA2 : E.mfccFeat yo = .ok A2) (hB2 : E.mfccFeat yg = .ok B2) :
    calculate_spectral_similarity E (some yo) (some yg) sr = specGridScore E.cosd A B ∧
    calculate_mfcc_similarity E (some yo) (some yg) sr = specGridScore E.cosd A2 B2 ∧
    (1 - E.cosd (specAligned A B).1 (specAligned A B).2 < 0 →
      calculate_spectral_similarity E (some yo) (some yg) sr = 0) := by
  have hs : calculate_spectral_similarity E (some yo) (some yg) sr =
      specGridScore E.cosd A B := by
    simp only [calculate_spectral_similarity, hA, hB]
    rfl
  refine ⟨hs, ?_, ?_⟩
  · simp only [calculate_mfcc_similarity, hA2, hB2]
    rfl
  · intro hneg
    rw [hs]
    unfold specGridScore specClamp
    rw [min_eq_left (by linarith), max_eq_left (by linarith)]

theorem c8_grid_scorers_refine_spec_witness :
    calculate_spectral_similarity gridE (some [1]) (some [2, 3]) 16000 =
      specGridScore gridE.cosd [[1]] [[1]] ∧
    calculate_mfcc_similarity gridE (some [1]) (some [2, 3]) 16000 =
      specGridScore gridE.cosd [[2]] [[2]] ∧
    (1 - gridE.cosd (specAligned [[1]] [[1]]).1 (specAligned [[1]] [[1]]).2 < 0 →
      calculate_spectral_similarity gridE (some [1]) (some [2, 3]) 16000 = 0) :=
  c8_grid_scorers_refine_spec gridE [1] [2, 3] [[1]] [[1]] [[2]] [[2]] 16000
    rfl rfl rfl rfl

/-- C9: calculate_formant_similarity binds the frequency GRID returned first by
scipy.signal.freqz and discards the frequency response, so whenever both
librosa.lpc calls succeed the cosine comparison runs on two identical copies
of the signal-independent grid (filtered below Nyquist): the returned score is
a function of the sample rate and the cosine routine alone, identical for any
two pairs of input signals, and never depends on either signal's own LPC
filter response. -/
theorem c9_formant_ignores_lpc_response
    (pyinF : List ℚ → Except String (List ℚ))
    (logmelF mfccF : List ℚ → Except String (List (List ℚ)))
    (lpcF : List ℚ → List ℚ) (cosd : List ℚ → List ℚ → ℚ)
    (yo yg yo2 yg2 : List ℚ) (sr : ℚ) :
    calculate_formant_similarity ⟨pyinF, logmelF, mfccF, fun y => .ok (lpcF y), cosd⟩
        (some yo) (some yg) sr =
      max 0 (min (1 - cosd ((freqzGridHz sr).filter (fun f => f < sr / 2))
        ((freqzGridHz sr).filter (fun f => f < sr / 2))) 1) ∧
    calculate_formant_similarity ⟨pyinF, logmelF, mfccF, fun y => .ok (lpcF y), cosd⟩
        (some yo) (some yg) sr =
      calculate_formant_similarity ⟨pyinF, logmelF, mfccF, fun y => .ok (lpcF y), cosd⟩
        (some yo2) (some yg2) sr :=
  ⟨rfl, rfl⟩

/-- C10: pitch similarity is not symmetric in its two arguments.  With voiced
contours [100] for signal [1] and [50] for signal [2], similarity([1], [2]) is
1/2 while similarity([2], [1]) is 0: the mean absolute difference (50) is
normalized by the mean of the first (reference) contour only (100 vs 50). -/
theorem c10_pitch_asymmetry :
    calculate_pitch_similarity asymE (some [1]) (some [2]) 16000 = 1/2 ∧
    calculate_pitch_similarity asymE (some [2]) (some [1]) 16000 = 0 ∧
    calculate_pitch_similarity asymE (some [1]) (some [2]) 16000 ≠
      calculate_pitch_similarity asymE (some [2]) (some [1]) 16000 := by
  have h1 : calculate_pitch_similarity asymE (some [1]) (some [2]) 16000 = 1/2 := by
    simp [calculate_pitch_similarity, asymE, resampleLin, linspace01, interpOn, mean,
      List.range_succ]
    norm_num [max_def, min_def]
  have h2 : calculate_pitch_similarity asymE (some [2]) (some [1]) 16000 = 0 := by
    simp [calculate_pitch_similarity, asymE, resampleLin, linspace01, interpOn, mean,
      List.range_succ]
    norm_num [max_def, min_def]
  refine ⟨h1, h2, ?_⟩
  rw [h1, h2]
  norm_num

end LlamaSesame
